import Mathlib

/-!
Verification development for the Briefly backend (user accounts, onboarding
profiles, and LLM-generated lesson batches).

The Python sources are shallowly embedded: pure helpers become Lean
functions, the relational store (profiles, users) and the document store
(lesson batches) become explicit lists threaded through the functions, and
calls to external libraries (bcrypt, JWT decoding, JSON parsing of provider
responses, UUID parsing, commit success) are modelled as oracle inputs, since
their outcomes are decided outside this repository. Long constant English
instruction strings inside the prompt builder are abbreviated: no property
below depends on their exact wording, only on how the prompt is assembled.
-/

namespace Briefly

/-! ## Enums (src/common/enums.py) -/

/-- Embeds common.enums.LearningType, a string enum with three members. -/
inductive LearningType where
  | VISUAL
  | TEXT
  | AUDIO
deriving DecidableEq, Repr

open LearningType

/-- Embeds the .value string of a LearningType member. -/
def LearningType.value : LearningType → String
  | VISUAL => "VISUAL"
  | TEXT => "TEXT"
  | AUDIO => "AUDIO"

/-! ## Password hashing (src/common/security.py)

A plaintext password is modelled as its list of Unicode characters; the
UTF-8 byte length of each character is given by Char.utf8Size. The bcrypt
context (ctx.hash / ctx.verify) is modelled as an ideal collision-free
primitive: hashing stores the (truncated) input inside an opaque wrapper and
verification recomputes the truncation and compares. This idealisation is
exactly the assumption under which the specification sentence about hashes
is meaningful. -/

/-- Embeds security.truncate_to_bytes: truncate a string so its UTF-8
encoding is at most maxBytes long, dropping a trailing partial character
(the encode / slice / decode-with-ignore dance in Python keeps exactly the
longest character prefix whose encoding fits). -/
def truncate_to_bytes : List Char → Nat → List Char
  | [], _ => []
  | c :: cs, maxBytes =>
    if c.utf8Size ≤ maxBytes then c :: truncate_to_bytes cs (maxBytes - c.utf8Size)
    else []

/-- Opaque wrapper modelling a bcrypt hash of the stored (truncated) input. -/
structure HashedPassword where
  digest : List Char
deriving DecidableEq, Repr

/-- Embeds security.hash_password: truncate to 72 UTF-8 bytes, then hash. -/
def hash_password (plain : List Char) : HashedPassword :=
  ⟨truncate_to_bytes plain 72⟩

/-- Embeds security.verify_password: truncate the candidate to 72 UTF-8
bytes, then verify against the stored hash. -/
def verify_password (plain : List Char) (hashed : HashedPassword) : Bool :=
  truncate_to_bytes plain 72 == hashed.digest

/-- UTF-8 byte length of a character list. -/
def utf8Len (cs : List Char) : Nat :=
  (cs.map Char.utf8Size).sum

/-! ## Users and token verification (src/auth/models.py, src/common/security.py) -/

/-- Embeds auth.models.User; columns not read by any verified route
(timestamps, last-login IP) are elided. -/
structure User where
  id : String
  email : String
  username : String
  password : HashedPassword
deriving DecidableEq, Repr

/-- Decoded JWT payload as read by get_current_user. The only claim the
function reads is email; payload.get on a missing claim yields none. -/
structure JwtPayload where
  email : Option String
deriving DecidableEq, Repr

/-- Result of an HTTP route: either a success status with a value or an
HTTPException status with a detail string. -/
inductive HttpResult (α : Type) where
  | ok (status : Nat) (val : α)
  | err (status : Nat) (detail : String)

/-- Embeds security.get_current_user. The jwt decode call (signature and
expiry check) is modelled by its outcome: none when decoding raised, some
payload when it succeeded. The user table is a list queried by email. -/
def get_current_user (decoded : Option JwtPayload) (users : List User) :
    HttpResult User :=
  match decoded with
  | none => .err 401 "Could not validate credentials"
  | some payload =>
    match payload.email with
    | none => .err 401 "Could not validate credentials"
    | some email =>
      match users.find? (fun u => u.email == email) with
      | none => .err 401 "Could not validate credentials"
      | some user => .ok 200 user

/-! ## Onboarding profiles (src/onboarding/models.py) -/

/-- Embeds onboarding.models.Profile (table onboarding_status); the
synthetic primary key column is elided, rows are identified by position in
the modelled table. -/
structure Profile where
  learning_type : LearningType
  topics : List String
  goal : Option String
  user_id : String
deriving DecidableEq, Repr

/-! ## JSON values returned by the providers

The provider SDKs hand back a string which utils passes to json.loads. The
parsing library is external, so a provider response is modelled as the
outcome of json.loads: none when parsing raised JSONDecodeError, some value
otherwise. -/

/-- Model of a parsed Python JSON value (dict keys are unique in order of
first appearance, modelled as an association list). -/
inductive Json where
  | null
  | bool (b : Bool)
  | num (n : Int)
  | str (s : String)
  | arr (elems : List Json)
  | obj (fields : List (String × Json))

/-- Association-list lookup used to model dict access on a parsed object. -/
def jsonLookup (fields : List (String × Json)) (key : String) : Option Json :=
  (fields.find? (fun kv => kv.1 == key)).map (fun kv => kv.2)

/-- Embeds the shared validation in generate_with_groq and
generate_with_gemini: isinstance(x, dict) and "lessons" in x and
isinstance(x["lessons"], list). -/
def hasLessonsList : Json → Bool
  | .obj fields =>
    match jsonLookup fields "lessons" with
    | some (.arr _) => true
    | _ => false
  | _ => false

/-- Embeds lesson_content.get("lessons", []) as used when building the
MongoDB document (after validation the value is always the array). -/
def jsonGetLessons : Json → List Json
  | .obj fields =>
    match jsonLookup fields "lessons" with
    | some (.arr xs) => xs
    | _ => []
  | _ => []

/-! ## Provider calls (src/common/utils.py) -/

/-- Errors raised out of the generation flow. ValueError maps to 404 in the
route, every other exception to 500. -/
inductive GenError where
  | valueError (msg : String)
  | genericError (msg : String)
deriving DecidableEq, Repr

/-- Record of one outbound provider invocation, with the arguments the
source passes to it. -/
inductive ProviderCall where
  | groq (prompt : String) (num_of_lessons : Int)
  | gemini (prompt : String) (learning_type : LearningType) (num_of_lessons : Int)

/-- Embeds utils.generate_with_groq. The network call and json.loads are
modelled by their combined outcome resp (none = invalid JSON). A GroqError
from the SDK would also surface as a generic error; it is part of the same
oracle (a failed call yields no parseable body, hence none). -/
def generate_with_groq (resp : Option Json) (num_of_lessons : Int) :
    Except GenError Json :=
  match resp with
  | none => .error (.genericError "Failed to parse Groq response as JSON")
  | some lesson_data =>
    if hasLessonsList lesson_data then .ok lesson_data
    else .error (.genericError
      "An unexpected error occurred during Groq generation: Groq response is not in the expected JSON format: missing lessons array or invalid structure.")

/-- Embeds utils.generate_with_gemini, same oracle treatment as Groq. -/
def generate_with_gemini (resp : Option Json) (learning_type : LearningType)
    (num_of_lessons : Int) : Except GenError Json :=
  match resp with
  | none => .error (.genericError "Failed to parse Gemini response as JSON")
  | some lesson_data =>
    if hasLessonsList lesson_data then .ok lesson_data
    else .error (.genericError
      "Gemini API error: Gemini response is not in the expected JSON format: missing lessons array or invalid structure.")

/-! ## Prompt construction (utils.build_lesson_prompt)

The constant English instruction sentences are abbreviated to short markers;
the assembly logic (topic join, conditional goal and focus clauses, the
branch on the learning type, interpolation of the count and of the enum
value) follows the source line by line. -/

/-- Embeds utils.build_lesson_prompt. Python truthiness of the optional
strings is preserved: a None or empty goal or title adds no clause. -/
def build_lesson_prompt (topics : List String) (goal : Option String)
    (learning_type : LearningType) (lesson_title : Option String)
    (num_of_lessons : Int) : String :=
  let topics_str := String.intercalate ", " topics
  let p0 := "Create " ++ toString num_of_lessons ++
    " comprehensive lessons on the following topics: " ++ topics_str ++ "."
  let p1 := match goal with
    | some g => if g.isEmpty then p0 else p0 ++ "\n\nThe users learning goal is: " ++ g
    | none => p0
  let p2 := match lesson_title with
    | some t => if t.isEmpty then p1 else p1 ++ "\n\nFocus specifically on: " ++ t
    | none => p1
  let p3 := p2 ++ "\n\nEach lesson should include a title, description, duration, difficulty, and tags."
  let p4 := p3 ++ (match learning_type with
    | .TEXT => "\n\nFor content, provide the full lesson text in a content_text field."
    | .VISUAL => "\n\nFor content, provide a video embed URL in content_url and a thumbnail in poster_image."
    | AUDIO => "\n\nFor content, provide an audio URL in content_url and a thumbnail in poster_image.")
  p4 ++ "\n\nReturn ONLY a JSON object with a lessons array, content_type " ++
    learning_type.value ++ ", plus key_points and exercises per lesson."

/-! ## Lesson documents and the generation flow (src/common/utils.py) -/

/-- Embeds a MongoDB lesson document as written by generate_lesson_content.
num_of_lessons is optional because retrieval reads it with .get and falls
back to the stored list length when the field is absent; documents written
by this code always carry it. The enum value is stored as .value and read
back through LearningType(...), an identity round trip modelled by keeping
the enum. -/
structure LessonDoc where
  id : String
  user_id : String
  learning_type : LearningType
  topics : List String
  goal : Option String
  num_of_lessons : Option Int
  lessons : List Json
  created_at : Nat
  expires_at : Nat

/-- Embeds the dict generate_lesson_content returns to the route. -/
structure GenResult where
  lesson_id : String
  num_of_lessons : Int
  lessons : List Json
  learning_type : LearningType
  created_at : Nat

/-- The two stores the flow touches: the relational profile table and the
MongoDB collection of lesson documents. -/
structure GenState where
  profiles : List Profile
  collection : List LessonDoc

/-- Oracle inputs for one generation request: the outcomes of the external
calls (provider response parsing, uuid.UUID validity of the user id, SQL
commit success) and the ambient values uuid4 and datetime.now deliver. -/
structure GenEnv where
  groqResp : Option Json
  geminiResp : Option Json
  uuidOk : Bool
  commitOk : Bool
  freshId : String
  now : Nat

/-- The 90-day expiry horizon (timedelta(days=90)) in seconds. -/
def ninetyDays : Nat := 90 * 86400

/-- Embeds the tail of utils.generate_lesson_content, from the profile
extraction to the MongoDB insert: st already contains a committed default
profile when one was created. Returns the result or error, the final state,
and the list of provider invocations made. -/
def generateWithProfile (user_id : String) (profile : Profile) (st : GenState)
    (env : GenEnv) (lesson_title : Option String) (num_of_lessons : Int) :
    Except GenError GenResult × GenState × List ProviderCall :=
  let learning_type := profile.learning_type
  let topics := profile.topics
  let goal := profile.goal
  let prompt := build_lesson_prompt topics goal learning_type lesson_title num_of_lessons
  let dispatched :=
    if learning_type = LearningType.TEXT then
      (generate_with_groq env.groqResp num_of_lessons,
       ProviderCall.groq prompt num_of_lessons)
    else
      (generate_with_gemini env.geminiResp learning_type num_of_lessons,
       ProviderCall.gemini prompt learning_type num_of_lessons)
  match dispatched with
  | (.error e, call) => (.error e, st, [call])
  | (.ok lesson_content, call) =>
    let lesson_document : LessonDoc :=
      { id := env.freshId
        user_id := user_id
        learning_type := learning_type
        topics := topics
        goal := goal
        num_of_lessons := some num_of_lessons
        lessons := jsonGetLessons lesson_content
        created_at := env.now
        expires_at := env.now + ninetyDays }
    (.ok
      { lesson_id := lesson_document.id
        num_of_lessons := num_of_lessons
        lessons := lesson_document.lessons
        learning_type := learning_type
        created_at := lesson_document.created_at },
     { st with collection := st.collection ++ [lesson_document] },
     [call])

/-- The default Profile synthesized for a user who skipped onboarding. -/
def defaultProfile (user_id : String) : Profile :=
  { learning_type := LearningType.TEXT
    topics := ["general programming concepts"]
    goal := some "gain foundational knowledge in various tech areas"
    user_id := user_id }

/-- Embeds utils.generate_lesson_content. The profile query takes the first
row matching the user id; when none exists a default profile is built,
validated (uuid.UUID(user_id), oracle env.uuidOk) and committed (oracle
env.commitOk) before generation proceeds. -/
def generate_lesson_content (user_id : String) (st : GenState) (env : GenEnv)
    (lesson_title : Option String) (num_of_lessons : Int) :
    Except GenError GenResult × GenState × List ProviderCall :=
  match st.profiles.find? (fun p => p.user_id == user_id) with
  | some profile =>
    generateWithProfile user_id profile st env lesson_title num_of_lessons
  | none =>
    if !env.uuidOk then
      (.error (.valueError ("Invalid user_id format: " ++ user_id ++ ". Expected a valid UUID.")), st, [])
    else if !env.commitOk then
      (.error (.valueError ("No onboarding profile found for user " ++ user_id ++ " and failed to create default")), st, [])
    else
      let profile := defaultProfile user_id
      generateWithProfile user_id profile
        { st with profiles := st.profiles ++ [profile] } env lesson_title num_of_lessons

/-! ## Request validation (src/lessons/schemas.py) -/

/-- Embeds lessons.schemas.LessonRequest after validation. -/
structure LessonRequest where
  lesson_title : Option String
  num_of_lessons : Int
deriving DecidableEq, Repr

/-- Embeds the Pydantic validation of LessonRequest: num_of_lessons
defaults to 5 and must satisfy ge=1, le=20; out-of-range bodies are
rejected by the framework with a 422 before the handler runs. -/
def validateLessonRequest (lesson_title : Option String)
    (num_of_lessons : Option Int) : Option LessonRequest :=
  let n := num_of_lessons.getD 5
  if 1 ≤ n ∧ n ≤ 20 then some { lesson_title := lesson_title, num_of_lessons := n }
  else none

/-! ## Lesson routes (src/lessons/routes.py) -/

/-- Embeds lessons.schemas.LessonResponse. The items are kept as the stored
JSON values; the per-item Pydantic LessonItem validation adds no behaviour
any verified property depends on. created_at.isoformat() is modelled by the
timestamp itself. -/
structure LessonResponse where
  lesson_id : String
  num_of_lessons : Int
  lessons : List Json
  learning_type : LearningType
  created_at : Nat

/-- Shared construction of a LessonResponse from a stored document, as
written out in get_lesson and get_user_lessons: num_of_lessons is read with
.get and falls back to len(lessons) only when the field is absent. -/
def docToResponse (d : LessonDoc) : LessonResponse :=
  { lesson_id := d.id
    num_of_lessons := d.num_of_lessons.getD (Int.ofNat d.lessons.length)
    lessons := d.lessons
    learning_type := d.learning_type
    created_at := d.created_at }

/-- Embeds routes.generate_lessons (POST /lessons/generate): framework
validation, then generate_lesson_content with the authenticated user id;
ValueError maps to 404, any other exception to 500, success to 201. -/
def generate_lessons (lesson_title : Option String) (num_of_lessons : Option Int)
    (current_user_id : String) (st : GenState) (env : GenEnv) :
    HttpResult LessonResponse × GenState × List ProviderCall :=
  match validateLessonRequest lesson_title num_of_lessons with
  | none => (.err 422 "validation error", st, [])
  | some request =>
    match generate_lesson_content current_user_id st env
        request.lesson_title request.num_of_lessons with
    | (.error (.valueError msg), st2, calls) => (.err 404 msg, st2, calls)
    | (.error (.genericError msg), st2, calls) =>
      (.err 500 ("Failed to generate lessons: " ++ msg), st2, calls)
    | (.ok result, st2, calls) =>
      (.ok 201
        { lesson_id := result.lesson_id
          num_of_lessons := result.num_of_lessons
          lessons := result.lessons
          learning_type := result.learning_type
          created_at := result.created_at }, st2, calls)

/-- Embeds routes.get_lesson (GET /lessons/id). The authenticated user is a
parameter because the route requires one, but the body never consults it. -/
def get_lesson (lesson_id : String) (current_user_id : String)
    (col : List LessonDoc) : HttpResult LessonResponse :=
  match col.find? (fun d => d.id == lesson_id) with
  | none => .err 404 ("Lesson with id " ++ lesson_id ++ " not found")
  | some lesson_doc => .ok 200 (docToResponse lesson_doc)

/-- Comparator used by the Mongo sort("created_at", -1): newest first. -/
def newestFirst (a b : LessonDoc) : Bool :=
  b.created_at ≤ a.created_at

/-- Embeds routes.get_user_lessons (GET /lessons/user/user_id). The path
user id is declared in the URL but never bound by the handler, so it is an
unused parameter here; the filter uses the authenticated identity. skip and
limit follow pymongo semantics: limit 0 means no limit. An empty page is
returned as an empty list, not a 404. -/
def get_user_lessons (path_user_id : String) (limit : Nat) (skip : Nat)
    (current_user_id : String) (col : List LessonDoc) :
    HttpResult (List LessonResponse) :=
  let filtered := col.filter (fun d => d.user_id == current_user_id)
  let sorted := filtered.mergeSort newestFirst
  let page := if limit == 0 then sorted.drop skip else (sorted.drop skip).take limit
  if page.isEmpty then .ok 200 []
  else .ok 200 (page.map docToResponse)

/-- Embeds routes.delete_lesson (DELETE /lessons/id): 404 when the document
is absent, 403 when it belongs to another user (store untouched), otherwise
delete_one on the id and 204. -/
def delete_lesson (lesson_id : String) (current_user_id : String)
    (col : List LessonDoc) : HttpResult Unit × List LessonDoc :=
  match col.find? (fun d => d.id == lesson_id) with
  | none => (.err 404 ("Lesson with id " ++ lesson_id ++ " not found"), col)
  | some lesson_doc =>
    if lesson_doc.user_id ≠ current_user_id then
      (.err 403 "Not authorized to delete this lesson", col)
    else
      (.ok 204 (), col.eraseP (fun d => d.id == lesson_id))

/-! ## Helper lemmas -/

/-- A character list whose UTF-8 length fits the budget is not truncated. -/
theorem truncate_of_fits (cs : List Char) (n : Nat) (h : utf8Len cs ≤ n) :
    truncate_to_bytes cs n = cs := by
  induction cs generalizing n with
  | nil => rfl
  | cons c cs ih =>
    have hlen : c.utf8Size + utf8Len cs ≤ n := by
      simpa [utf8Len] using h
    have hsz : c.utf8Size ≤ n := Nat.le_trans (Nat.le_add_right _ _) hlen
    have hrest : utf8Len cs ≤ n - c.utf8Size :=
      Nat.le_sub_of_add_le (by omega)
    simp [truncate_to_bytes, hsz, ih _ hrest]

end Briefly

namespace Briefly

open LearningType

/-! ## C6 — password hash round trip -/

/-- C6 as stated is false: hash_password truncates its input to 72 UTF-8
bytes (matching the bcrypt limit), so a 73-byte plaintext and the distinct
plaintext obtained by changing its 73rd byte verify against the same hash. -/
theorem c6_counterexample :
    (List.replicate 72 'a' ++ ['b'] ≠ List.replicate 73 'a') ∧
    verify_password (List.replicate 72 'a' ++ ['b'])
      (hash_password (List.replicate 73 'a')) = true := by
  constructor
  · decide
  · decide

/-- C6 (amended): verify_password(plain, hash_password(plain)) is always
true, and a candidate verifies as false whenever its 72-byte UTF-8
truncation differs from that of the hashed plaintext — in particular for
every distinct candidate when both plaintexts are at most 72 UTF-8 bytes
long. -/
theorem c6_password_roundtrip (plain other : List Char) :
    verify_password plain (hash_password plain) = true ∧
    (truncate_to_bytes other 72 ≠ truncate_to_bytes plain 72 →
      verify_password other (hash_password plain) = false) ∧
    (utf8Len plain ≤ 72 → utf8Len other ≤ 72 → other ≠ plain →
      verify_password other (hash_password plain) = false) := by
  refine ⟨?_, ?_, ?_⟩
  · simp [verify_password, hash_password]
  · intro hne
    simpa [verify_password, hash_password] using hne
  · intro hp ho hne
    have h1 : truncate_to_bytes other 72 = other := truncate_of_fits other 72 ho
    have h2 : truncate_to_bytes plain 72 = plain := truncate_of_fits plain 72 hp
    simp [verify_password, hash_password, h1, h2, hne]

/-- Witness for c6_password_roundtrip at concrete passwords. -/
theorem c6_password_roundtrip_witness :
    verify_password ['a', 'b'] (hash_password ['a', 'b']) = true ∧
    verify_password ['x'] (hash_password ['a', 'b']) = false :=
  ⟨(c6_password_roundtrip ['a', 'b'] ['x']).1,
   (c6_password_roundtrip ['a', 'b'] ['x']).2.2 (by decide) (by decide) (by decide)⟩

/-! ## C5 — token verification -/

/-- C5: get_current_user answers 401 when the token fails to decode, when
the decoded payload has no email claim, and when the email resolves to no
stored user; otherwise it returns exactly the user found by email. -/
theorem c5_get_current_user_spec (decoded : Option JwtPayload) (users : List User) :
    (decoded = none →
      get_current_user decoded users = .err 401 "Could not validate credentials") ∧
    (∀ p, decoded = some p → p.email = none →
      get_current_user decoded users = .err 401 "Could not validate credentials") ∧
    (∀ p e, decoded = some p → p.email = some e →
      users.find? (fun u => u.email == e) = none →
      get_current_user decoded users = .err 401 "Could not validate credentials") ∧
    (∀ p e u, decoded = some p → p.email = some e →
      users.find? (fun u => u.email == e) = some u →
      get_current_user decoded users = .ok 200 u) := by
  refine ⟨?_, ?_, ?_, ?_⟩
  · intro h; subst h; rfl
  · intro p hd he; subst hd; simp [get_current_user, he]
  · intro p e hd he hf; subst hd; simp [get_current_user, he, hf]
  · intro p e u hd he hf; subst hd; simp [get_current_user, he, hf]

/-- Concrete user row used by witnesses. -/
def annUser : User :=
  { id := "u-1", email := "ann@example.com", username := "ann",
    password := ⟨['p']⟩ }

/-- Witness for c5_get_current_user_spec: a valid token for a stored user
returns that user, and a token whose user is gone yields 401. -/
theorem c5_get_current_user_spec_witness :
    get_current_user (some { email := some "ann@example.com" }) [annUser] =
      .ok 200 annUser ∧
    get_current_user (some { email := some "gone@example.com" }) [annUser] =
      .err 401 "Could not validate credentials" :=
  ⟨(c5_get_current_user_spec (some { email := some "ann@example.com" })
      [annUser]).2.2.2 _ _ _ rfl rfl rfl,
   (c5_get_current_user_spec (some { email := some "gone@example.com" })
      [annUser]).2.2.1 _ _ rfl rfl rfl⟩

/-! ## C4 — delete_lesson -/

/-- C4: delete_lesson answers 404 when no document has the id, 403 with the
store untouched when the document belongs to another user, and otherwise
removes the document (the store shrinks by exactly the matching document)
and answers 204. -/
theorem c4_delete_lesson_spec (lesson_id uid : String) (col : List LessonDoc) :
    (col.find? (fun d => d.id == lesson_id) = none →
      delete_lesson lesson_id uid col =
        (.err 404 ("Lesson with id " ++ lesson_id ++ " not found"), col)) ∧
    (∀ d, col.find? (fun d => d.id == lesson_id) = some d → d.user_id ≠ uid →
      delete_lesson lesson_id uid col =
        (.err 403 "Not authorized to delete this lesson", col)) ∧
    (∀ d, col.find? (fun d => d.id == lesson_id) = some d → d.user_id = uid →
      delete_lesson lesson_id uid col =
        (.ok 204 (), col.eraseP (fun d => d.id == lesson_id)) ∧
      (delete_lesson lesson_id uid col).2.length = col.length - 1) := by
  refine ⟨?_, ?_, ?_⟩
  · intro h; simp [delete_lesson, h]
  · intro d hf hne; simp [delete_lesson, hf, hne]
  · intro d hf heq
    have hmem : d ∈ col := List.mem_of_find?_eq_some hf
    have hpd := List.find?_some hf
    have hany : col.any (fun d => d.id == lesson_id) = true :=
      List.any_eq_true.mpr ⟨d, hmem, hpd⟩
    constructor
    · simp [delete_lesson, hf, heq]
    · simp [delete_lesson, hf, heq, List.length_eraseP, hany]

/-- Witness for c4_delete_lesson_spec: with one stored document, the owner
deletes it (store becomes empty) and a stranger gets 403 with the store
intact. -/
theorem c4_delete_lesson_spec_witness :
    delete_lesson "L1" "owner"
      [{ id := "L1", user_id := "owner", learning_type := .TEXT, topics := [],
         goal := none, num_of_lessons := some 1, lessons := [Json.null],
         created_at := 0, expires_at := ninetyDays }] =
      (.ok 204 (), []) ∧
    delete_lesson "L1" "stranger"
      [{ id := "L1", user_id := "owner", learning_type := .TEXT, topics := [],
         goal := none, num_of_lessons := some 1, lessons := [Json.null],
         created_at := 0, expires_at := ninetyDays }] =
      (.err 403 "Not authorized to delete this lesson",
       [{ id := "L1", user_id := "owner", learning_type := .TEXT, topics := [],
          goal := none, num_of_lessons := some 1, lessons := [Json.null],
          created_at := 0, expires_at := ninetyDays }]) :=
  ⟨((c4_delete_lesson_spec "L1" "owner"
      [{ id := "L1", user_id := "owner", learning_type := .TEXT, topics := [],
         goal := none, num_of_lessons := some 1, lessons := [Json.null],
         created_at := 0, expires_at := ninetyDays }]).2.2 _ rfl rfl).1,
   (c4_delete_lesson_spec "L1" "stranger"
      [{ id := "L1", user_id := "owner", learning_type := .TEXT, topics := [],
         goal := none, num_of_lessons := some 1, lessons := [Json.null],
         created_at := 0, expires_at := ninetyDays }]).2.1 _ rfl (by decide)⟩

/-! ## C10 — get_lesson has no ownership check -/

/-- C10: get_lesson never consults the authenticated caller, so any two
authenticated users retrieving the same lesson id over the same store get
identical results; in particular whenever a document with the id exists it
is returned (status 200) to whichever user asks. -/
theorem c10_get_lesson_ignores_caller (lesson_id u1 u2 : String)
    (col : List LessonDoc) :
    get_lesson lesson_id u1 col = get_lesson lesson_id u2 col ∧
    (∀ d, col.find? (fun d => d.id == lesson_id) = some d →
      get_lesson lesson_id u1 col = .ok 200 (docToResponse d)) := by
  refine ⟨rfl, ?_⟩
  intro d hf
  simp [get_lesson, hf]

/-- Concrete stored document used by witnesses: owned by user "owner". -/
def demoDoc : LessonDoc :=
  { id := "L1", user_id := "owner", learning_type := .TEXT, topics := ["t"],
    goal := none, num_of_lessons := some 1, lessons := [Json.null],
    created_at := 5, expires_at := 5 + ninetyDays }

/-- Witness for c10_get_lesson_ignores_caller: a stranger retrieves the
document owned by "owner". -/
theorem c10_get_lesson_ignores_caller_witness :
    get_lesson "L1" "stranger" [demoDoc] = .ok 200 (docToResponse demoDoc) :=
  (c10_get_lesson_ignores_caller "L1" "stranger" "owner" [demoDoc]).2 demoDoc rfl

/-! ## C9 — requested lesson count bounds -/

/-- C9: a request body is accepted exactly when its lesson count (default 5
when omitted) lies in 1..20; accepted requests always satisfy the bounds,
and an out-of-range count is rejected with a 422 before
generate_lesson_content runs: no provider call is made and neither store
changes. -/
theorem c9_num_of_lessons_bounds (title : Option String) (raw : Option Int)
    (uid : String) (st : GenState) (env : GenEnv) :
    (∀ r, validateLessonRequest title raw = some r →
      1 ≤ r.num_of_lessons ∧ r.num_of_lessons ≤ 20) ∧
    (∀ n, raw = some n → (n < 1 ∨ 20 < n) →
      validateLessonRequest title raw = none ∧
      generate_lessons title raw uid st env = (.err 422 "validation error", st, [])) := by
  constructor
  · intro r hr
    by_cases h : 1 ≤ raw.getD 5 ∧ raw.getD 5 ≤ 20
    · have hreq : r = { lesson_title := title, num_of_lessons := raw.getD 5 } := by
        simpa [validateLessonRequest, h] using hr.symm
      subst hreq
      exact h
    · simp [validateLessonRequest, h] at hr
  · intro n hn hout
    subst hn
    have h : ¬ (1 ≤ n ∧ n ≤ 20) := by omega
    have hv : validateLessonRequest title (some n) = none := by
      simp [validateLessonRequest, h]
    exact ⟨hv, by simp [generate_lessons, hv]⟩

/-- Witness for c9_num_of_lessons_bounds: count 21 is rejected with no
provider call and no state change; the default count 5 is accepted and in
bounds. -/
theorem c9_num_of_lessons_bounds_witness :
    (validateLessonRequest none (some 21) = none ∧
      generate_lessons none (some 21) "u1" ⟨[], []⟩
        ⟨none, none, true, true, "L1", 0⟩ =
        (.err 422 "validation error", ⟨[], []⟩, [])) ∧
    (1 ≤ (5 : Int) ∧ (5 : Int) ≤ 20) :=
  ⟨(c9_num_of_lessons_bounds none (some 21) "u1" ⟨[], []⟩
      ⟨none, none, true, true, "L1", 0⟩).2 21 rfl (by decide),
   (c9_num_of_lessons_bounds none none "u1" ⟨[], []⟩
      ⟨none, none, true, true, "L1", 0⟩).1
     { lesson_title := none, num_of_lessons := 5 } rfl⟩

/-! ## Generation-flow helper lemmas -/

/-- Boolean error test on the embedded exception monad. -/
def exceptIsError {α : Type} : Except GenError α → Bool
  | .error _ => true
  | .ok _ => false

/-- The generation tail never touches the profile table. -/
theorem generateWithProfile_profiles (uid : String) (p : Profile)
    (st : GenState) (env : GenEnv) (t : Option String) (n : Int) :
    (generateWithProfile uid p st env t n).2.1.profiles = st.profiles := by
  unfold generateWithProfile
  dsimp only
  split
  · rfl
  · rfl

/-- The generation tail makes exactly the one provider call selected by the
learning preference. -/
theorem generateWithProfile_calls (uid : String) (p : Profile)
    (st : GenState) (env : GenEnv) (t : Option String) (n : Int) :
    (generateWithProfile uid p st env t n).2.2 =
      [if p.learning_type = LearningType.TEXT then
        ProviderCall.groq (build_lesson_prompt p.topics p.goal p.learning_type t n) n
       else
        ProviderCall.gemini (build_lesson_prompt p.topics p.goal p.learning_type t n)
          p.learning_type n] := by
  unfold generateWithProfile
  by_cases h : p.learning_type = LearningType.TEXT <;>
    simp only [h, if_true, if_false, if_pos, if_neg, not_false_eq_true] <;>
    split <;> simp_all

/-- On a provider failure the generation tail persists nothing. -/
theorem generateWithProfile_error_collection (uid : String) (p : Profile)
    (st : GenState) (env : GenEnv) (t : Option String) (n : Int) (e : GenError)
    (herr : (generateWithProfile uid p st env t n).1 = .error e) :
    (generateWithProfile uid p st env t n).2.1.collection = st.collection := by
  revert herr
  unfold generateWithProfile
  dsimp only
  split
  · intro _; rfl
  · intro h; exact absurd h (by simp)

/-- A document present after the generation tail but not before records the
requested count. -/
theorem generateWithProfile_new_doc (uid : String) (p : Profile)
    (st : GenState) (env : GenEnv) (t : Option String) (n : Int) :
    ∀ d, d ∈ (generateWithProfile uid p st env t n).2.1.collection →
      d ∉ st.collection → d.num_of_lessons = some n := by
  unfold generateWithProfile
  dsimp only
  split
  · intro d hd hnd; exact absurd hd hnd
  · intro d hd hnd
    rcases List.mem_append.mp hd with h | h
    · exact absurd h hnd
    · rcases List.mem_singleton.mp h with rfl
      rfl

/-! ## C1 — default profile creation -/

/-- C1 as stated is false in one particular: the synthesized default
Profile carries a non-empty goal string, not an absent goal. Running a
generation request for a user with no profile leaves exactly one profile in
the table and its goal is some fixed string, not none. -/
theorem c1_counterexample :
    ((generate_lesson_content "u1" ⟨[], []⟩
        ⟨some (Json.obj [("lessons", Json.arr [])]), none, true, true, "L1", 0⟩
        none 1).2.1.profiles.map Profile.goal)
      = [some "gain foundational knowledge in various tech areas"] ∧
    some "gain foundational knowledge in various tech areas" ≠ (none : Option String) := by
  exact ⟨rfl, by decide⟩

/-- C1 (amended): for a user with no Profile row (valid user uuid, commit
succeeding), generate_lesson_content appends exactly one default Profile —
fixed TEXT preference, the placeholder topic list, and a fixed default goal
string — and then generates using that profile: the single provider call is
to Groq with the prompt built from the default profile. -/
theorem c1_default_profile (uid : String) (st : GenState) (env : GenEnv)
    (title : Option String) (n : Int)
    (hnone : st.profiles.find? (fun p => p.user_id == uid) = none)
    (huuid : env.uuidOk = true) (hcommit : env.commitOk = true) :
    (generate_lesson_content uid st env title n).2.1.profiles
      = st.profiles ++ [defaultProfile uid] ∧
    (defaultProfile uid).learning_type = LearningType.TEXT ∧
    (defaultProfile uid).topics = ["general programming concepts"] ∧
    (defaultProfile uid).goal = some "gain foundational knowledge in various tech areas" ∧
    (generate_lesson_content uid st env title n).2.2
      = [ProviderCall.groq
          (build_lesson_prompt ["general programming concepts"]
            (some "gain foundational knowledge in various tech areas")
            LearningType.TEXT title n) n] := by
  have hrun : generate_lesson_content uid st env title n
      = generateWithProfile uid (defaultProfile uid)
          { st with profiles := st.profiles ++ [defaultProfile uid] } env title n := by
    simp [generate_lesson_content, hnone, huuid, hcommit]
  refine ⟨?_, rfl, rfl, rfl, ?_⟩
  · rw [hrun, generateWithProfile_profiles]
  · rw [hrun, generateWithProfile_calls]
    rfl

/-- Environment used by generation witnesses: both providers answer a valid
object holding one lesson. -/
def demoEnv : GenEnv :=
  { groqResp := some (Json.obj [("lessons", Json.arr [Json.null])])
    geminiResp := some (Json.obj [("lessons", Json.arr [Json.null])])
    uuidOk := true
    commitOk := true
    freshId := "L1"
    now := 0 }

/-- Witness for c1_default_profile over the empty stores. -/
theorem c1_default_profile_witness :
    (generate_lesson_content "u1" ⟨[], []⟩ demoEnv none 1).2.1.profiles
      = [defaultProfile "u1"] ∧
    (defaultProfile "u1").learning_type = LearningType.TEXT :=
  ⟨(c1_default_profile "u1" ⟨[], []⟩ demoEnv none 1 rfl rfl rfl).1,
   (c1_default_profile "u1" ⟨[], []⟩ demoEnv none 1 rfl rfl rfl).2.1⟩

/-! ## C2 — provider dispatch -/

/-- C2: when a profile exists, the generation flow makes exactly one
provider call; it goes to Groq when the preference is TEXT and to Gemini
when the preference is VISUAL or AUDIO. -/
theorem c2_provider_dispatch (uid : String) (st : GenState) (env : GenEnv)
    (title : Option String) (n : Int) (profile : Profile)
    (hp : st.profiles.find? (fun p => p.user_id == uid) = some profile) :
    ((generate_lesson_content uid st env title n).2.2).length = 1 ∧
    (profile.learning_type = LearningType.TEXT →
      (generate_lesson_content uid st env title n).2.2
        = [ProviderCall.groq
            (build_lesson_prompt profile.topics profile.goal profile.learning_type title n) n]) ∧
    (profile.learning_type = LearningType.VISUAL ∨
        profile.learning_type = AUDIO →
      (generate_lesson_content uid st env title n).2.2
        = [ProviderCall.gemini
            (build_lesson_prompt profile.topics profile.goal profile.learning_type title n)
            profile.learning_type n]) := by
  have hrun : generate_lesson_content uid st env title n
      = generateWithProfile uid profile st env title n := by
    simp [generate_lesson_content, hp]
  rw [hrun, generateWithProfile_calls]
  refine ⟨rfl, ?_, ?_⟩
  · intro h; rw [if_pos h]
  · intro h
    have hne : profile.learning_type ≠ LearningType.TEXT := by
      rcases h with h | h <;> rw [h] <;> intro hc <;> cases hc
    rw [if_neg hne]

/-- Profile row used by generation witnesses (TEXT preference). -/
def demoProfile : Profile :=
  { learning_type := .TEXT, topics := ["t"], goal := none, user_id := "owner" }

/-- Witness for c2_provider_dispatch: a stored TEXT profile triggers exactly
one provider call. -/
theorem c2_provider_dispatch_witness :
    ((generate_lesson_content "owner" ⟨[demoProfile], []⟩ demoEnv none 1).2.2).length = 1 ∧
    (generate_lesson_content "owner" ⟨[demoProfile], []⟩ demoEnv none 1).2.2
      = [ProviderCall.groq
          (build_lesson_prompt ["t"] none LearningType.TEXT none 1) 1] :=
  ⟨(c2_provider_dispatch "owner" ⟨[demoProfile], []⟩ demoEnv none 1 demoProfile rfl).1,
   (c2_provider_dispatch "owner" ⟨[demoProfile], []⟩ demoEnv none 1 demoProfile rfl).2.1 rfl⟩

/-! ## C3 — malformed provider responses -/

/-- C3: generate_with_groq and generate_with_gemini fail exactly when the
response is not valid JSON (the parse oracle is none) or the parsed value
lacks a top-level lessons list; the flow makes at most one provider call
(no retry) and a failed generation persists no lesson document. -/
theorem c3_malformed_response (resp : Option Json) (lt : LearningType) (m : Int)
    (uid : String) (st : GenState) (env : GenEnv) (title : Option String) (n : Int) :
    (exceptIsError (generate_with_groq resp m) = true ↔
      resp = none ∨ ∃ j, resp = some j ∧ hasLessonsList j = false) ∧
    (exceptIsError (generate_with_gemini resp lt m) = true ↔
      resp = none ∨ ∃ j, resp = some j ∧ hasLessonsList j = false) ∧
    ((generate_lesson_content uid st env title n).2.2).length ≤ 1 ∧
    (∀ e, (generate_lesson_content uid st env title n).1 = .error e →
      (generate_lesson_content uid st env title n).2.1.collection = st.collection) := by
  refine ⟨?_, ?_, ?_, ?_⟩
  · cases resp with
    | none => simp [generate_with_groq, exceptIsError]
    | some j =>
      by_cases h : hasLessonsList j <;> simp [generate_with_groq, exceptIsError, h]
  · cases resp with
    | none => simp [generate_with_gemini, exceptIsError]
    | some j =>
      by_cases h : hasLessonsList j <;> simp [generate_with_gemini, exceptIsError, h]
  · unfold generate_lesson_content
    cases hfind : st.profiles.find? (fun p => p.user_id == uid) with
    | some p => simp [generateWithProfile_calls]
    | none =>
      by_cases hu : env.uuidOk <;> by_cases hc : env.commitOk <;>
        simp [hu, hc, generateWithProfile_calls]
  · intro e
    unfold generate_lesson_content
    cases hfind : st.profiles.find? (fun p => p.user_id == uid) with
    | some p => exact generateWithProfile_error_collection uid p st env title n e
    | none =>
      by_cases hu : env.uuidOk <;> by_cases hc : env.commitOk <;> simp [hu, hc]
      exact generateWithProfile_error_collection uid (defaultProfile uid) _ env title n e

/-- Witness for c3_malformed_response: a JSON number is rejected by the
Groq wrapper, and a generation request whose provider response is
unparseable leaves the lesson store unchanged. -/
theorem c3_malformed_response_witness :
    exceptIsError (generate_with_groq (some (Json.num 3)) 1) = true ∧
    (generate_lesson_content "owner" ⟨[demoProfile], [demoDoc]⟩
      ⟨none, none, true, true, "L2", 0⟩ none 1).2.1.collection = [demoDoc] :=
  ⟨(c3_malformed_response (some (Json.num 3)) LearningType.TEXT 1 "owner"
      ⟨[demoProfile], [demoDoc]⟩ ⟨none, none, true, true, "L2", 0⟩ none 1).1.mpr
      (Or.inr ⟨Json.num 3, rfl, rfl⟩),
   (c3_malformed_response (some (Json.num 3)) LearningType.TEXT 1 "owner"
      ⟨[demoProfile], [demoDoc]⟩ ⟨none, none, true, true, "L2", 0⟩ none 1).2.2.2
      (.genericError "Failed to parse Groq response as JSON") rfl⟩

/-! ## C7 — recorded lesson count -/

/-- C7 as stated is false: the provider response is never checked against
the requested count, so a request for two lessons answered with one lesson
stores a document whose recorded count (2) differs from the length of its
item sequence (1). -/
theorem c7_counterexample :
    ((generate_lesson_content "owner"
        ⟨[{ learning_type := .TEXT, topics := ["t"], goal := none, user_id := "owner" }], []⟩
        ⟨some (Json.obj [("lessons", Json.arr [Json.null])]), none, true, true, "L1", 0⟩
        none 2).2.1.collection.map (fun d => (d.num_of_lessons, d.lessons.length)))
      = [(some 2, 1)] ∧
    (some (2 : Int) ≠ some (Int.ofNat 1)) := by
  exact ⟨rfl, by decide⟩

/-- C7 (amended): every newly persisted LessonBatch document records
num_of_lessons equal to the requested count — which equals the length of
its stored item sequence exactly when the provider returned that many items
— and retrieval by id returns the recorded count unchanged, without
recomputing it from the stored items. -/
theorem c7_recorded_count (uid : String) (st : GenState) (env : GenEnv)
    (title : Option String) (n : Int) (lesson_id caller : String)
    (col : List LessonDoc) :
    (∀ d, d ∈ (generate_lesson_content uid st env title n).2.1.collection →
      d ∉ st.collection →
      d.num_of_lessons = some n ∧
        (Int.ofNat d.lessons.length = n →
          d.num_of_lessons = some (Int.ofNat d.lessons.length))) ∧
    (∀ d k, col.find? (fun x => x.id == lesson_id) = some d →
      d.num_of_lessons = some k →
      get_lesson lesson_id caller col = .ok 200 (docToResponse d) ∧
      (docToResponse d).num_of_lessons = k) := by
  constructor
  · intro d hd hnd
    have hcount : d.num_of_lessons = some n := by
      revert hd
      unfold generate_lesson_content
      cases hfind : st.profiles.find? (fun p => p.user_id == uid) with
      | some p => exact fun hd => generateWithProfile_new_doc uid p st env title n d hd hnd
      | none =>
        by_cases hu : env.uuidOk <;> by_cases hc : env.commitOk <;> simp [hu, hc]
        · exact fun hd => generateWithProfile_new_doc uid (defaultProfile uid) _ env title n d hd hnd
        · intro hd; exact absurd hd hnd
        · intro hd; exact absurd hd hnd
        · intro hd; exact absurd hd hnd
    exact ⟨hcount, fun hlen => by rw [hcount, hlen]⟩
  · intro d k hf hk
    refine ⟨by simp [get_lesson, hf], ?_⟩
    simp [docToResponse, hk]

/-- Witness for c7_recorded_count: retrieving the stored demo document
returns its recorded count 1. -/
theorem c7_recorded_count_witness :
    get_lesson "L1" "x" [demoDoc] = .ok 200 (docToResponse demoDoc) ∧
    (docToResponse demoDoc).num_of_lessons = 1 :=
  (c7_recorded_count "u" ⟨[], []⟩ demoEnv none 1 "L1" "x" [demoDoc]).2
    demoDoc 1 rfl rfl

/-! ## C8 — paging the callers lesson batches -/

/-- The route always answers 200 with the mapped page, whether or not the
page is empty. -/
theorem get_user_lessons_eq (p uid : String) (limit skip : Nat)
    (col : List LessonDoc) :
    get_user_lessons p limit skip uid col =
      .ok 200 ((if limit == 0
          then ((col.filter (fun d => d.user_id == uid)).mergeSort newestFirst).drop skip
          else (((col.filter (fun d => d.user_id == uid)).mergeSort newestFirst).drop skip).take limit).map
        docToResponse) := by
  unfold get_user_lessons
  dsimp only
  split
  · split
    · next h => rw [List.isEmpty_iff.mp h]; rfl
    · rfl
  · split
    · next h => rw [List.isEmpty_iff.mp h]; rfl
    · rfl

/-- C8: the result of get_user_lessons does not depend on the path user id;
it is exactly the 200 page obtained by filtering the store to the
authenticated caller, sorting by creation time descending, dropping skip
documents and taking limit of the rest (all of them when limit is 0, the
pymongo convention). Consequently every returned batch belongs to the
caller, the page is sorted descending and at most limit long, its length is
exactly the skip/limit window of the callers batch count, with skip 0 and a
sufficient limit it is a permutation of all the callers batches, and a
caller with no batches gets an empty list rather than a not-found error. -/
theorem c8_user_lessons (p1 p2 uid : String) (limit skip : Nat)
    (col : List LessonDoc) :
    get_user_lessons p1 limit skip uid col = get_user_lessons p2 limit skip uid col ∧
    get_user_lessons p1 limit skip uid col =
      .ok 200 ((if limit == 0
          then ((col.filter (fun d => d.user_id == uid)).mergeSort newestFirst).drop skip
          else (((col.filter (fun d => d.user_id == uid)).mergeSort newestFirst).drop skip).take limit).map
        docToResponse) ∧
    (∃ rs, get_user_lessons p1 limit skip uid col = .ok 200 rs ∧
      (∀ r ∈ rs, ∃ d, d ∈ col ∧ d.user_id = uid ∧ r = docToResponse d) ∧
      rs.Pairwise (fun a b => b.created_at ≤ a.created_at) ∧
      (limit ≠ 0 → rs.length ≤ limit) ∧
      rs.length = (if limit == 0
          then (col.filter (fun d => d.user_id == uid)).length - skip
          else min limit ((col.filter (fun d => d.user_id == uid)).length - skip)) ∧
      (skip = 0 → (limit = 0 ∨ (col.filter (fun d => d.user_id == uid)).length ≤ limit) →
        List.Perm rs ((col.filter (fun d => d.user_id == uid)).map docToResponse)) ∧
      (col.filter (fun d => d.user_id == uid) = [] → rs = [])) := by
  have hlen_sorted : ((col.filter (fun d => d.user_id == uid)).mergeSort newestFirst).length
      = (col.filter (fun d => d.user_id == uid)).length :=
    (List.mergeSort_perm _ newestFirst).length_eq
  refine ⟨rfl, get_user_lessons_eq p1 uid limit skip col,
    _, get_user_lessons_eq p1 uid limit skip col, ?_, ?_, ?_, ?_, ?_, ?_⟩
  · intro r hr
    rcases List.mem_map.mp hr with ⟨d, hdP, rfl⟩
    have hsub : List.Sublist (if limit == 0
        then ((col.filter (fun d => d.user_id == uid)).mergeSort newestFirst).drop skip
        else (((col.filter (fun d => d.user_id == uid)).mergeSort newestFirst).drop skip).take limit)
        ((col.filter (fun d => d.user_id == uid)).mergeSort newestFirst) := by
      split
      · exact List.drop_sublist _ _
      · exact (List.take_sublist _ _).trans (List.drop_sublist _ _)
    have hdS := hsub.subset hdP
    have hdF : d ∈ col.filter (fun d => d.user_id == uid) :=
      (List.mergeSort_perm _ newestFirst).mem_iff.mp hdS
    rcases List.mem_filter.mp hdF with ⟨hcol, hbeq⟩
    exact ⟨d, hcol, by simpa using hbeq, rfl⟩
  · have htrans : ∀ (a b c : LessonDoc),
        newestFirst a b → newestFirst b c → newestFirst a c := by
      intro a b c h1 h2
      simp only [newestFirst, decide_eq_true_eq] at *
      omega
    have htot : ∀ (a b : LessonDoc), newestFirst a b || newestFirst b a := by
      intro a b
      simp only [newestFirst, Bool.or_eq_true, decide_eq_true_eq]
      omega
    have hS : ((col.filter (fun d => d.user_id == uid)).mergeSort newestFirst).Pairwise
        (fun a b => newestFirst a b) :=
      List.sorted_mergeSort htrans htot _
    have hsub : List.Sublist (if limit == 0
        then ((col.filter (fun d => d.user_id == uid)).mergeSort newestFirst).drop skip
        else (((col.filter (fun d => d.user_id == uid)).mergeSort newestFirst).drop skip).take limit)
        ((col.filter (fun d => d.user_id == uid)).mergeSort newestFirst) := by
      split
      · exact List.drop_sublist _ _
      · exact (List.take_sublist _ _).trans (List.drop_sublist _ _)
    have hP := List.Pairwise.sublist hsub hS
    refine List.pairwise_map.mpr (hP.imp ?_)
    intro a b h
    simpa [newestFirst, docToResponse] using h
  · intro hl
    have hcond : ¬ ((limit == 0) = true) := by simpa using hl
    rw [if_neg hcond]
    simp only [List.length_map, List.length_take]
    exact Nat.min_le_left _ _
  · by_cases h0 : (limit == 0) = true
    · rw [if_pos h0, if_pos h0]
      simp only [List.length_map, List.length_drop, hlen_sorted]
    · rw [if_neg h0, if_neg h0]
      simp only [List.length_map, List.length_take, List.length_drop, hlen_sorted]
  · intro hskip hfit
    subst hskip
    have hperm0 : List.Perm
        ((col.filter (fun d => d.user_id == uid)).mergeSort newestFirst)
        (col.filter (fun d => d.user_id == uid)) :=
      List.mergeSort_perm _ newestFirst
    by_cases h0 : (limit == 0) = true
    · rw [if_pos h0]
      simpa using hperm0.map docToResponse
    · rw [if_neg h0]
      have hle : (col.filter (fun d => d.user_id == uid)).length ≤ limit := by
        rcases hfit with h | h
        · subst h; simp at h0
        · exact h

      have htake : (((col.filter (fun d => d.user_id == uid)).mergeSort newestFirst).drop 0).take limit
          = (col.filter (fun d => d.user_id == uid)).mergeSort newestFirst := by
        rw [List.drop_zero]
        exact List.take_of_length_le (by rw [hlen_sorted]; exact hle)
      rw [htake]
      exact hperm0.map docToResponse
  · intro hF
    have hS : (col.filter (fun d => d.user_id == uid)).mergeSort newestFirst = [] := by
      have hperm := List.mergeSort_perm (col.filter (fun d => d.user_id == uid)) newestFirst
      rw [hF] at hperm ⊢
      exact hperm.eq_nil
    rw [hS]
    split <;> simp

/-- Witness for c8_user_lessons over a one-document store owned by the
caller: the page has at most 10 entries and is a permutation of (here,
exactly) the callers single batch. -/
theorem c8_user_lessons_witness :
    get_user_lessons "pathA" 10 0 "owner" [demoDoc]
      = get_user_lessons "pathB" 10 0 "owner" [demoDoc] ∧
    ∃ rs, get_user_lessons "pathA" 10 0 "owner" [demoDoc] = .ok 200 rs ∧
      rs.length ≤ 10 ∧ List.Perm rs [docToResponse demoDoc] := by
  obtain ⟨rs, h1, _, _, h4, _, h6, _⟩ :=
    (c8_user_lessons "pathA" "pathB" "owner" 10 0 [demoDoc]).2.2
  refine ⟨(c8_user_lessons "pathA" "pathB" "owner" 10 0 [demoDoc]).1,
    rs, h1, h4 (by decide), ?_⟩
  have hp := h6 rfl (Or.inr (by decide))
  have hfd : List.filter (fun d => d.user_id == "owner") [demoDoc] = [demoDoc] := by
    rfl
  rw [hfd] at hp
  exact hp

end Briefly
